import Mathlib

/-
Shallow embedding of the browser lifecycle manager of this repository
(browser_server.py, utils.py) and of its HTTP transport layer
(api_server.py).  OS interactions (the connection table consulted by
psutil, Playwright executable lookup, tempfile.mkdtemp, subprocess.Popen,
the httpx probe of the CDP debug endpoint, the UDP-socket trick of
get_local_ip, process liveness) are collected in an `Env` record; each
operation is a pure function of the environment and of the in-memory
registry `BROWSER_PROCESSES`, returning its Python result together with
the registry it leaves behind.
-/

/- utils.py: psutil.net_connections() yields connection records; the code
reads only `conn.laddr.port`, so a connection is embedded as its local
address, and an address as its port. -/

structure Addr where
  port : Nat
deriving DecidableEq, Repr

structure Conn where
  laddr : Addr
deriving DecidableEq, Repr

/- utils.py, is_port_in_use: loop over net_connections, return True on the
first connection whose laddr.port equals the queried port, else False. -/
def is_port_in_use (conns : List Conn) (port : Nat) : Bool :=
  conns.any (fun conn => conn.laddr.port = port)

/- browser_server.py: one registry value, `{process, user_data_dir,
browser_name}`; the process handle is embedded as its OS pid. -/
structure BrowserInfo where
  process : Nat
  user_data_dir : String
  browser_name : String
deriving DecidableEq, Repr

/- The module-global dict BROWSER_PROCESSES, port -> BrowserInfo. -/
def Registry : Type := Nat → Option BrowserInfo

def emptyReg : Registry := fun _ => none

/- Python `BROWSER_PROCESSES[port] = info` -/
def reg_set (reg : Registry) (k : Nat) (v : BrowserInfo) : Registry :=
  fun q => if q = k then some v else reg q

/- Python `del BROWSER_PROCESSES[port]` (key presence checked by caller) -/
def reg_del (reg : Registry) (k : Nat) : Registry :=
  fun q => if q = k then none else reg q

/- The JSON body of GET /json/version, as read by the resolver: only the
status code and the value of the key `webSocketDebuggerUrl` matter
(`data.get` returns None when the key is absent). -/
structure ProbeResponse where
  status : Nat
  webSocketDebuggerUrl : Option String
deriving DecidableEq, Repr

/- The OS facts an operation can observe.  `popen` returns the pid of the
spawned process or the text of the raised OSError; `probe` is None when
httpx.get raises (connection failure or timeout); `sockIp` is the
getsockname()[0] of the connected UDP socket, None when connect raises. -/
structure Env where
  conns : List Conn
  executable : String → Option String
  mkdtemp : String → String
  popen : List String → Except String Nat
  probe : Nat → Option ProbeResponse
  sockIp : Option String
  procAlive : Nat → Bool
  dirExists : String → Bool

/- utils.py, get_local_ip: the socket's own address, or "127.0.0.1" when
the connect to 8.8.8.8 fails. -/
def get_local_ip (env : Env) : String :=
  env.sockIp.getD "127.0.0.1"

/- browser_server.py, get_browser_executable_path: map chrome to chromium,
then ask Playwright for the executable path (None when that raises). -/
def get_browser_executable_path (env : Env) (browser_name : String) : Option String :=
  env.executable (if browser_name = "chrome" then "chromium" else browser_name)

/- browser_server.py line 40: `reserved_ports = range(50050, 50062)`. -/
def reserved_port (p : Nat) : Bool :=
  decide (50050 ≤ p ∧ p < 50062)

/- The condition of the scan loop: `is_port_in_use(port) or port in
reserved_ports`. -/
def port_bad (conns : List Conn) (p : Nat) : Bool :=
  is_port_in_use conns p || reserved_port p

/- browser_server.py lines 43-47, the port scan loop:
      while is_port_in_use(port) or port in reserved_ports:
          port += 1
          if port > original_port + 100:
              return ... "Could not find an available port within range"
   `remaining` carries the quantity original_port + 100 - port that the
   loop's own bound keeps nonnegative: the increment followed by the check
   `port > original_port + 100` fails exactly when remaining was 0. -/
def scan_go (conns : List Conn) : Nat → Nat → Option Nat
  | port, 0 => if port_bad conns port then none else some port
  | port, r + 1 => if port_bad conns port then scan_go conns (port + 1) r else some port

/- The loop is entered with port = original_port, so remaining = 100. -/
def scan_port (conns : List Conn) (port : Nat) : Option Nat :=
  scan_go conns port 100

/- browser_server.py lines 59-82: the command line, by browser family. -/
def build_cmd (browser_path : String) (browser_name : String) (port : Nat)
    (user_data_dir : String) : List String :=
  if browser_name = "firefox" then
    [browser_path, "--remote-debugging-port", toString port,
     "-profile", user_data_dir, "-no-remote", "-new-instance"]
  else
    [browser_path, "--remote-debugging-port=" ++ toString port,
     "--user-data-dir=" ++ user_data_dir, "--no-first-run",
     "--no-default-browser-check"] ++
    (if browser_name = "chrome" ∨ browser_name = "chromium" then
      ["--remote-debugging-address=0.0.0.0", "--password-store=basic",
       "--use-mock-keychain"]
    else [])

/- The triple `(success, port, error)` returned by start_browser. -/
structure StartResult where
  success : Bool
  port : Nat
  error : Option String
deriving DecidableEq, Repr

/- browser_server.py lines 34-105, start_browser.  The body runs under a
try/except; of the modelled operations only Popen can raise, and it does
so before the registry is written, so the except path returns with the
registry untouched.  time.sleep and logging are effect-free here. -/
def start_browser (env : Env) (reg : Registry) (browser_name : String) (port : Nat) :
    StartResult × Registry :=
  if browser_name ∉ ["firefox", "webkit", "chrome", "chromium"] then
    (⟨false, port, some ("Invalid browser: " ++ browser_name)⟩, reg)
  else
    match scan_port env.conns port with
    | none => (⟨false, port, some "Could not find an available port within range"⟩, reg)
    | some actual =>
      match get_browser_executable_path env browser_name with
      | none =>
        (⟨false, actual, some ("Could not find executable for browser: " ++ browser_name)⟩, reg)
      | some browser_path =>
        let user_data_dir :=
          env.mkdtemp ("browser-use-" ++ browser_name ++ "-" ++ toString actual ++ "-")
        match env.popen (build_cmd browser_path browser_name actual user_data_dir) with
        | .error e => (⟨false, actual, some e⟩, reg)
        | .ok pid =>
          (⟨true, actual, none⟩, reg_set reg actual ⟨pid, user_data_dir, browser_name⟩)

/- browser_server.py lines 108-109. -/
def is_browser_running (env : Env) (reg : Registry) (port : Nat) : Bool × Registry :=
  (is_port_in_use env.conns port, reg)

/- The dict returned by get_browser_connection. -/
structure ConnInfo where
  ip : String
  port : Nat
  cdp_url : String
  ws_endpoint : String
deriving DecidableEq, Repr

/- Python dict .get over the four keys the resolver's dict carries
(the port value rendered as text to keep one value type). -/
def ConnInfo.get (c : ConnInfo) (key : String) : Option String :=
  if key = "ip" then some c.ip
  else if key = "port" then some (toString c.port)
  else if key = "cdp_url" then some c.cdp_url
  else if key = "ws_endpoint" then some c.ws_endpoint
  else none

/- The f-string f"ws://{ip}:{port}/" the code synthesizes as a guessed
websocket URL. -/
def synthesized_ws (ip : String) (port : Nat) : String :=
  "ws://" ++ ip ++ ":" ++ toString port ++ "/"

/- browser_server.py lines 112-149, get_browser_connection.  The httpx
probe is the environment's `probe`; `if ws_url:` is Python truthiness, so
both an absent key and an empty-string value fall through to the
synthesized fallback URL. -/
def get_browser_connection (env : Env) (reg : Registry) (port : Nat) :
    Option ConnInfo × Registry :=
  let result : Option ConnInfo :=
    if ¬ (is_browser_running env reg port).1 then none
    else
      let ip := "127.0.0.1"
      let fallback : ConnInfo :=
        ⟨ip, port, synthesized_ws ip port, synthesized_ws ip port⟩
      match env.probe port with
      | some response =>
        if response.status = 200 then
          match response.webSocketDebuggerUrl with
          | some ws_url =>
            if ws_url ≠ "" then some ⟨ip, port, ws_url, ws_url⟩ else some fallback
          | none => some fallback
        else some fallback
      | none => some fallback
  (result, reg)

/- browser_server.py lines 152-183, close_browser.  poll/terminate/kill
and the rmtree of the profile directory are OS effects whose failure is
either caught (TimeoutExpired) or suppressed (ignore_errors=True); neither
branch of the poll test changes the returned value, and the entry is
deleted unconditionally afterwards. -/
def close_browser (env : Env) (reg : Registry) (port : Nat) :
    (Bool × Option String) × Registry :=
  match reg port with
  | none => ((false, some ("No browser process tracked on port " ++ toString port)), reg)
  | some info =>
    let result : Bool × Option String :=
      if env.procAlive info.process then (true, none) else (true, none)
    let _dir_present := env.dirExists info.user_data_dir
    (result, reg_del reg port)

/- ------------------------------------------------------------------
api_server.py, the HTTP transport layer.
------------------------------------------------------------------- -/

/- A Python runtime value, as far as the handlers inspect one. -/
inductive PyVal where
  | vBool : Bool → PyVal
  | vInt : Nat → PyVal
  | vStr : String → PyVal
  | vNone : PyVal
deriving DecidableEq, Repr

/- Python truthiness of a PyVal. -/
def pyTruthy : PyVal → Bool
  | .vBool b => b
  | .vInt n => n ≠ 0
  | .vStr s => s ≠ ""
  | .vNone => false

/- str() of a PyVal, as far as the handlers render one. -/
def pyToStr : PyVal → String
  | .vBool b => if b then "True" else "False"
  | .vInt n => toString n
  | .vStr s => s
  | .vNone => "None"

/- Python 2-target iterable unpacking `a, b = xs`: ValueError unless the
iterable has exactly two elements (the message is str() of the error, as
the handlers forward it into HTTPException detail). -/
def pyUnpack2 (xs : List PyVal) : Except String (PyVal × PyVal) :=
  match xs with
  | [] => .error "not enough values to unpack (expected 2, got 0)"
  | [_] => .error "not enough values to unpack (expected 2, got 1)"
  | [a, b] => .ok (a, b)
  | _ => .error "too many values to unpack (expected 2)"

/- The value of the Python expression `start_browser(...)`: the 3-tuple
(success, port, error) as a tuple of runtime values. -/
def startResultTuple (r : StartResult) : List PyVal :=
  [.vBool r.success, .vInt r.port,
   match r.error with
   | some s => .vStr s
   | none => .vNone]

/- The body of StartBrowserResponse. -/
structure StartBrowserResponse where
  success : Bool
  message : String
  cdp_url : Option String
  ws_endpoint : Option String
deriving DecidableEq, Repr

/- The body of BrowserConnectionResponse. -/
structure BrowserConnectionResponse where
  running : Bool
  cdp_url : Option String
  ws_endpoint : Option String
  ip : Option String
  port : Option Nat
deriving DecidableEq, Repr

/- api_server.py lines 67-93, POST /browser/start.  The handler writes
`success, message = start_browser(request.browser_name, request.port)`;
the callee returns a 3-tuple, so the unpacking raises and the except
clause turns it into HTTPException(500, str(e)), modelled as
Except.error.  The continuation after the unpacking is kept faithfully
(it reads conn_info under the key "wsEndpoint" and uses request.port)
even though it is unreachable. -/
def start_browser_endpoint (env : Env) (reg : Registry) (browser_name : String)
    (port : Nat) : Except String StartBrowserResponse × Registry :=
  let r := start_browser env reg browser_name port
  match pyUnpack2 (startResultTuple r.1) with
  | .error e => (.error e, r.2)
  | .ok (successV, messageV) =>
    let success := pyTruthy successV
    let message := if pyTruthy messageV then pyToStr messageV else ""
    if success then
      let c := get_browser_connection env r.2 port
      let local_ip := get_local_ip env
      let ws_default := synthesized_ws local_ip port
      let ws := match c.1 with
        | some info => (info.get "wsEndpoint").getD ws_default
        | none => ws_default
      (.ok ⟨success, message, some ("http://" ++ local_ip ++ ":" ++ toString port),
            some ws⟩, c.2)
    else
      (.ok ⟨success, message, none, none⟩, r.2)

/- api_server.py lines 112-131, GET /browser/{port}/connection. -/
def get_browser_connection_endpoint (env : Env) (reg : Registry) (port : Nat) :
    Except String BrowserConnectionResponse × Registry :=
  let r := is_browser_running env reg port
  if r.1 then
    let c := get_browser_connection env r.2 port
    let local_ip := get_local_ip env
    let ws_default := synthesized_ws local_ip port
    let ws := match c.1 with
      | some info => (info.get "wsEndpoint").getD ws_default
      | none => ws_default
    (.ok ⟨true, some ("http://" ++ local_ip ++ ":" ++ toString port), some ws,
          some local_ip, some port⟩, c.2)
  else
    (.ok ⟨false, none, none, none, none⟩, r.2)

/- ------------------------------------------------------------------
Concrete environments for witnesses and counterexamples.
------------------------------------------------------------------- -/

/- An executable table with the three Playwright families installed. -/
def execTable : String → Option String := fun name =>
  if name = "chromium" then some "/pw/chromium/chrome"
  else if name = "firefox" then some "/pw/firefox/firefox"
  else if name = "webkit" then some "/pw/webkit/pw_run.sh"
  else none

/- Port 9999 already bound; everything else free; probe never answers. -/
def envBusy9999 : Env :=
  { conns := [⟨⟨9999⟩⟩]
    executable := execTable
    mkdtemp := fun pre => "/tmp/" ++ pre ++ "abc123"
    popen := fun _ => .ok 4242
    probe := fun _ => none
    sockIp := some "192.168.1.5"
    procAlive := fun _ => true
    dirExists := fun _ => true }

/- Nothing bound at all. -/
def envFree : Env :=
  { envBusy9999 with conns := [] }

/- Every port of [0, 100] bound: the scan from 0 finds nothing. -/
def envAllBusy : Env :=
  { envBusy9999 with conns := (List.range 101).map (fun p => ⟨⟨p⟩⟩) }

/- Port 9999 bound and its debug endpoint answering 200 with a live
webSocketDebuggerUrl. -/
def envLive : Env :=
  { envBusy9999 with
    probe := fun _ => some ⟨200, some "ws://127.0.0.1:9999/devtools/browser/abc"⟩ }

/- Port 9999 bound, the probe answering 200 with the key present but
holding the empty string. -/
def envEmptyWs : Env :=
  { envBusy9999 with probe := fun _ => some ⟨200, some ""⟩ }

/- ------------------------------------------------------------------
Properties of the port scan.
------------------------------------------------------------------- -/

theorem scan_go_some (conns : List Conn) :
    ∀ rem port q, scan_go conns port rem = some q →
      port ≤ q ∧ q ≤ port + rem ∧ port_bad conns q = false ∧
      ∀ r, port ≤ r → r < q → port_bad conns r = true := by
  intro rem
  induction rem with
  | zero =>
    intro port q h
    unfold scan_go at h
    by_cases hb : port_bad conns port
    · simp [hb] at h
    · simp [hb] at h
      subst h
      refine ⟨le_refl _, by omega, by simpa using hb, ?_⟩
      intro r h1 h2
      omega
  | succ r ih =>
    intro port q h
    unfold scan_go at h
    by_cases hb : port_bad conns port
    · simp [hb] at h
      obtain ⟨h1, h2, h3, h4⟩ := ih (port + 1) q h
      refine ⟨by omega, by omega, h3, ?_⟩
      intro s hs1 hs2
      rcases Nat.eq_or_lt_of_le hs1 with rfl | hlt
      · exact hb
      · exact h4 s hlt hs2
    · simp [hb] at h
      subst h
      refine ⟨le_refl _, by omega, by simpa using hb, ?_⟩
      intro s h1 h2
      omega

theorem scan_go_none (conns : List Conn) :
    ∀ rem port, (∀ r, port ≤ r → r ≤ port + rem → port_bad conns r = true) →
      scan_go conns port rem = none := by
  intro rem
  induction rem with
  | zero =>
    intro port h
    unfold scan_go
    simp [h port (le_refl _) (by omega)]
  | succ r ih =>
    intro port h
    unfold scan_go
    simp [h port (le_refl _) (by omega)]
    exact ih (port + 1) (fun s hs1 hs2 => h s (by omega) (by omega))

theorem reg_set_self (reg : Registry) (k : Nat) (v : BrowserInfo) :
    reg_set reg k v k = some v := by
  simp [reg_set]

theorem reg_set_other (reg : Registry) (k : Nat) (v : BrowserInfo) (q : Nat)
    (h : q ≠ k) : reg_set reg k v q = reg q := by
  simp [reg_set, h]

/- On success the returned port is exactly what the scan produced. -/
theorem start_browser_success_scan (env : Env) (reg : Registry) (browser_name : String)
    (p : Nat) :
    (start_browser env reg browser_name p).1.success = true →
    scan_port env.conns p = some (start_browser env reg browser_name p).1.port := by
  unfold start_browser
  split
  · intro h
    simp at h
  · split
    · intro h
      simp at h
    · next actual hscan =>
      split
      · intro h
        simp at h
      · dsimp only
        split
        · intro h
          simp at h
        · intro _
          simpa using hscan

/-- C1: a successful start_browser returns the first port at or above the
requested one that is neither in use nor inside the reserved band
[50050, 50062), hence never a reserved or in-use port, and when every port
within 100 increments of the request is in use or reserved it fails with
the no-port-available error instead of returning a port beyond
requested + 100. -/
theorem start_browser_port_scan (env : Env) (reg : Registry) (browser_name : String)
    (p : Nat) :
    ((start_browser env reg browser_name p).1.success = true →
      p ≤ (start_browser env reg browser_name p).1.port ∧
      (start_browser env reg browser_name p).1.port ≤ p + 100 ∧
      port_bad env.conns (start_browser env reg browser_name p).1.port = false ∧
      ∀ q, p ≤ q → q < (start_browser env reg browser_name p).1.port →
        port_bad env.conns q = true) ∧
    (browser_name ∈ ["firefox", "webkit", "chrome", "chromium"] →
      (∀ q, p ≤ q → q ≤ p + 100 → port_bad env.conns q = true) →
      (start_browser env reg browser_name p).1.success = false ∧
      (start_browser env reg browser_name p).1.error =
        some "Could not find an available port within range") := by
  constructor
  · intro hs
    have hscan := start_browser_success_scan env reg browser_name p hs
    exact scan_go_some env.conns 100 p _ hscan
  · intro hvalid hbad
    have hnone : scan_port env.conns p = none :=
      scan_go_none env.conns 100 p hbad
    unfold start_browser
    simp [hvalid, hnone]

theorem envAllBusy_bad (q : Nat) (hq : q ≤ 100) :
    port_bad envAllBusy.conns q = true := by
  have hmem : (⟨⟨q⟩⟩ : Conn) ∈ envAllBusy.conns := by
    show (⟨⟨q⟩⟩ : Conn) ∈ (List.range 101).map (fun p => (⟨⟨p⟩⟩ : Conn))
    exact List.mem_map.mpr ⟨q, List.mem_range.mpr (by omega), rfl⟩
  have h1 : is_port_in_use envAllBusy.conns q = true := by
    unfold is_port_in_use
    exact List.any_eq_true.mpr ⟨⟨⟨q⟩⟩, hmem, by simp⟩
  unfold port_bad
  simp [h1]

theorem start_browser_port_scan_witness :
    (9999 ≤ (start_browser envBusy9999 emptyReg "chrome" 9999).1.port ∧
      port_bad envBusy9999.conns (start_browser envBusy9999 emptyReg "chrome" 9999).1.port
        = false) ∧
    ((start_browser envAllBusy emptyReg "chrome" 0).1.success = false ∧
      (start_browser envAllBusy emptyReg "chrome" 0).1.error =
        some "Could not find an available port within range") := by
  constructor
  · have h := (start_browser_port_scan envBusy9999 emptyReg "chrome" 9999).1 (by decide)
    exact ⟨h.1, h.2.2.1⟩
  · exact (start_browser_port_scan envAllBusy emptyReg "chrome" 0).2 (by decide)
      (fun q _ hq => envAllBusy_bad q (by omega))

/-- C2: start_browser either succeeds and registers exactly one entry at
the returned actual port, carrying a process handle, a profile directory
and the requested browser name, leaving every other port's entry as it
was, or fails with an error message and leaves the registry
BROWSER_PROCESSES exactly as it was. -/
theorem start_browser_registry (env : Env) (reg : Registry) (browser_name : String)
    (p : Nat) :
    ((start_browser env reg browser_name p).1.success = true →
      (∃ pid dir,
        (start_browser env reg browser_name p).2
          (start_browser env reg browser_name p).1.port =
          some ⟨pid, dir, browser_name⟩) ∧
      ∀ q, q ≠ (start_browser env reg browser_name p).1.port →
        (start_browser env reg browser_name p).2 q = reg q) ∧
    ((start_browser env reg browser_name p).1.success = false →
      (∃ e, (start_browser env reg browser_name p).1.error = some e) ∧
      (start_browser env reg browser_name p).2 = reg) := by
  unfold start_browser
  split
  · constructor
    · intro h
      simp at h
    · intro _
      exact ⟨⟨_, rfl⟩, rfl⟩
  · split
    · constructor
      · intro h
        simp at h
      · intro _
        exact ⟨⟨_, rfl⟩, rfl⟩
    · split
      · constructor
        · intro h
          simp at h
        · intro _
          exact ⟨⟨_, rfl⟩, rfl⟩
      · dsimp only
        split
        · constructor
          · intro h
            simp at h
          · intro _
            exact ⟨⟨_, rfl⟩, rfl⟩
        · constructor
          · intro _
            refine ⟨⟨_, _, reg_set_self reg _ _⟩, ?_⟩
            intro q hq
            exact reg_set_other reg _ _ q hq
          · intro h
            simp at h

theorem start_browser_registry_witness :
    (start_browser envFree emptyReg "firefox" 9999).2 777 = emptyReg 777 ∧
    (start_browser envFree emptyReg "safari" 9999).2 = emptyReg := by
  constructor
  · exact ((start_browser_registry envFree emptyReg "firefox" 9999).1 (by decide)).2
      777 (by decide)
  · exact ((start_browser_registry envFree emptyReg "safari" 9999).2 (by decide)).2

/- A registry with a single tracked entry on port 9999. -/
def regOne : Registry :=
  reg_set emptyReg 9999 ⟨4242, "/tmp/browser-use-chrome-9999-abc123", "chrome"⟩

/-- C3: close_browser fails with the not-tracked error exactly when the
port has no registry entry; on a tracked port it reports success and
removes the entry whatever the OS state (dead process, failing profile
deletion), so a second close_browser on the same port fails with the
not-tracked error. -/
theorem close_browser_contract (env : Env) (reg : Registry) (port : Nat) :
    ((close_browser env reg port).1.1 = false ↔ reg port = none) ∧
    (reg port = none →
      (close_browser env reg port).1 =
        (false, some ("No browser process tracked on port " ++ toString port)) ∧
      (close_browser env reg port).2 = reg) ∧
    (∀ info, reg port = some info →
      (close_browser env reg port).1 = (true, none) ∧
      (close_browser env reg port).2 port = none ∧
      (close_browser env ((close_browser env reg port).2) port).1 =
        (false, some ("No browser process tracked on port " ++ toString port))) ∧
    (∀ env2, close_browser env2 reg port = close_browser env reg port) := by
  refine ⟨?_, ?_, ?_, ?_⟩
  · cases h : reg port <;> simp [close_browser, h]
  · intro h
    simp [close_browser, h]
  · intro info h
    refine ⟨by simp [close_browser, h], by simp [close_browser, h, reg_del], ?_⟩
    simp [close_browser, h, reg_del]
  · intro env2
    cases h : reg port <;> simp [close_browser, h]

theorem close_browser_contract_witness :
    (close_browser envFree regOne 9999).1 = (true, none) ∧
    (close_browser envFree regOne 9999).2 9999 = none ∧
    (close_browser envFree ((close_browser envFree regOne 9999).2) 9999).1 =
      (false, some "No browser process tracked on port 9999") := by
  have h := (close_browser_contract envFree regOne 9999).2.2.1
    ⟨4242, "/tmp/browser-use-chrome-9999-abc123", "chrome"⟩ (by decide)
  exact ⟨h.1, h.2.1, h.2.2.trans (by decide)⟩

/-- C4: the claim says POST /browser/start returns a
{success, message, cdp_url, ws_endpoint} body, with success = true and the
connection URLs when start_browser succeeds.  The handler instead unpacks
start_browser's 3-tuple into two targets, so every request — including one
whose underlying start_browser call succeeds, as the second conjunct
shows at a concrete input — raises ValueError and is turned into the
generic 500 server error. -/
theorem start_browser_endpoint_always_errors :
    (∀ env reg browser_name port,
      (start_browser_endpoint env reg browser_name port).1 =
        Except.error "too many values to unpack (expected 2)") ∧
    (start_browser envFree emptyReg "chrome" 9999).1.success = true := by
  constructor
  · intro env reg browser_name port
    rfl
  · decide

/-- C5 counterexample: "chromium" lies outside the enum
{firefox, chrome, webkit}, yet start_browser accepts it and succeeds
(here on free port 9999) instead of failing with the invalid-browser
error. -/
theorem start_browser_chromium_accepted :
    "chromium" ∉ ["firefox", "chrome", "webkit"] ∧
    (start_browser envFree emptyReg "chromium" 9999).1 =
      ⟨true, 9999, none⟩ := by
  constructor
  · decide
  · decide

/-- C5 (amended): for every browser_name outside the code's supported list
{firefox, webkit, chrome, chromium}, start_browser fails with the
invalid-browser error and leaves the registry unchanged. -/
theorem start_browser_invalid_name (env : Env) (reg : Registry)
    (browser_name : String) (port : Nat)
    (h : browser_name ∉ ["firefox", "webkit", "chrome", "chromium"]) :
    (start_browser env reg browser_name port).1 =
      ⟨false, port, some ("Invalid browser: " ++ browser_name)⟩ ∧
    (start_browser env reg browser_name port).2 = reg := by
  unfold start_browser
  simp [h]

theorem start_browser_invalid_name_witness :
    (start_browser envFree emptyReg "safari" 9999).1 =
      ⟨false, 9999, some "Invalid browser: safari"⟩ ∧
    (start_browser envFree emptyReg "safari" 9999).2 = emptyReg := by
  have h := start_browser_invalid_name envFree emptyReg "safari" 9999 (by decide)
  exact ⟨h.1.trans (by decide), h.2⟩

/-- C6: for every port the Port Prober reports unbound,
get_browser_connection returns null, whatever the registry contains. -/
theorem get_browser_connection_not_running (env : Env) (reg : Registry) (port : Nat)
    (h : is_port_in_use env.conns port = false) :
    (get_browser_connection env reg port).1 = none := by
  simp [get_browser_connection, is_browser_running, h]

theorem get_browser_connection_not_running_witness :
    (get_browser_connection envFree regOne 9999).1 = none :=
  get_browser_connection_not_running envFree regOne 9999 (by decide)

/-- C7 counterexample: with port 9999 bound and the probe answering 200
with the webSocketDebuggerUrl field present but empty, the claim says the
returned websocket URL is that field's value, yet the resolver falls back
to the synthesized URL (Python truthiness treats the present empty string
like an absent field). -/
theorem get_browser_connection_empty_field :
    envEmptyWs.probe 9999 = some ⟨200, some ""⟩ ∧
    is_port_in_use envEmptyWs.conns 9999 = true ∧
    (get_browser_connection envEmptyWs emptyReg 9999).1 =
      some ⟨"127.0.0.1", 9999, "ws://127.0.0.1:9999/", "ws://127.0.0.1:9999/"⟩ ∧
    "ws://127.0.0.1:9999/" ≠ "" := by
  refine ⟨rfl, by decide, by decide, by decide⟩

/-- C7 (amended): for every bound port, get_browser_connection returns a
result whose ip is exactly "127.0.0.1" and whose port is the queried port;
its websocket URL is the probed webSocketDebuggerUrl when the probe
answers 200 with that field present and non-empty, and the synthesized
fallback ws://127.0.0.1:<port>/ whenever the probe fails or times out,
answers with a non-200 status, or the field is absent or empty. -/
theorem get_browser_connection_bound (env : Env) (reg : Registry) (port : Nat)
    (h : is_port_in_use env.conns port = true) :
    ∃ ci, (get_browser_connection env reg port).1 = some ci ∧
      ci.ip = "127.0.0.1" ∧ ci.port = port ∧
      (∀ resp ws, env.probe port = some resp → resp.status = 200 →
        resp.webSocketDebuggerUrl = some ws → ws ≠ "" →
        ci.ws_endpoint = ws ∧ ci.cdp_url = ws) ∧
      ((env.probe port = none ∨
        (∃ resp, env.probe port = some resp ∧
          (resp.status ≠ 200 ∨ resp.webSocketDebuggerUrl = none ∨
            resp.webSocketDebuggerUrl = some ""))) →
        ci.ws_endpoint = synthesized_ws "127.0.0.1" port ∧
        ci.cdp_url = synthesized_ws "127.0.0.1" port) := by
  rcases hp : env.probe port with _ | resp
  · refine ⟨⟨"127.0.0.1", port, synthesized_ws "127.0.0.1" port,
        synthesized_ws "127.0.0.1" port⟩,
      by simp [get_browser_connection, is_browser_running, h, hp], rfl, rfl, ?_, ?_⟩
    · intro resp ws hresp
      exact Option.noConfusion hresp
    · intro _
      exact ⟨rfl, rfl⟩
  · by_cases hst : resp.status = 200
    · rcases hws : resp.webSocketDebuggerUrl with _ | ws
      · refine ⟨⟨"127.0.0.1", port, synthesized_ws "127.0.0.1" port,
            synthesized_ws "127.0.0.1" port⟩,
          by simp [get_browser_connection, is_browser_running, h, hp, hst, hws],
          rfl, rfl, ?_, ?_⟩
        · intro resp2 ws hresp2 _ hws2 _
          rw [Option.some_inj] at hresp2
          subst hresp2
          rw [hws] at hws2
          exact Option.noConfusion hws2
        · intro _
          exact ⟨rfl, rfl⟩
      · by_cases hemp : ws = ""
        · subst hemp
          refine ⟨⟨"127.0.0.1", port, synthesized_ws "127.0.0.1" port,
              synthesized_ws "127.0.0.1" port⟩,
            by simp [get_browser_connection, is_browser_running, h, hp, hst, hws],
            rfl, rfl, ?_, ?_⟩
          · intro resp2 ws2 hresp2 _ hws2 hne
            rw [Option.some_inj] at hresp2
            subst hresp2
            rw [hws, Option.some_inj] at hws2
            exact absurd hws2.symm hne
          · intro _
            exact ⟨rfl, rfl⟩
        · refine ⟨⟨"127.0.0.1", port, ws, ws⟩,
            by simp [get_browser_connection, is_browser_running, h, hp, hst, hws, hemp],
            rfl, rfl, ?_, ?_⟩
          · intro resp2 ws2 hresp2 _ hws2 _
            rw [Option.some_inj] at hresp2
            subst hresp2
            rw [hws, Option.some_inj] at hws2
            subst hws2
            exact ⟨rfl, rfl⟩
          · intro hcase
            rcases hcase with hnone | ⟨resp2, hresp2, hbad⟩
            · exact Option.noConfusion hnone
            · rw [Option.some_inj] at hresp2
              subst hresp2
              rcases hbad with hbad | hbad | hbad
              · exact absurd hst hbad
              · rw [hws] at hbad
                exact Option.noConfusion hbad
              · rw [hws, Option.some_inj] at hbad
                exact absurd hbad hemp
    · refine ⟨⟨"127.0.0.1", port, synthesized_ws "127.0.0.1" port,
          synthesized_ws "127.0.0.1" port⟩,
        by simp [get_browser_connection, is_browser_running, h, hp, hst],
        rfl, rfl, ?_, ?_⟩
      · intro resp2 ws hresp2 hst2 _ _
        rw [Option.some_inj] at hresp2
        subst hresp2
        exact absurd hst2 hst
      · intro _
        exact ⟨rfl, rfl⟩

theorem get_browser_connection_bound_witness :
    ((get_browser_connection envLive emptyReg 9999).1.map ConnInfo.ws_endpoint) =
      some "ws://127.0.0.1:9999/devtools/browser/abc" := by
  obtain ⟨ci, hci, _, _, hlive, _⟩ :=
    get_browser_connection_bound envLive emptyReg 9999 (by decide)
  have hws := hlive ⟨200, some "ws://127.0.0.1:9999/devtools/browser/abc"⟩
    "ws://127.0.0.1:9999/devtools/browser/abc" rfl rfl rfl (by decide)
  rw [hci]
  simp [hws.1]

/-- C8: the query operations never mutate the registry — for every port,
is_browser_running and get_browser_connection return the registry exactly
as they received it, whatever their result. -/
theorem queries_preserve_registry (env : Env) (reg : Registry) (port : Nat) :
    (is_browser_running env reg port).2 = reg ∧
    (get_browser_connection env reg port).2 = reg :=
  ⟨rfl, rfl⟩

/-- C9: is_browser_running coincides with the port prober and is
independent of the registry: two calls under the same OS connection table
but different registries return the same value, so a port bound by a
foreign process reads as running and a tracked dead process as not
running. -/
theorem is_browser_running_ignores_registry (env : Env) (reg1 reg2 : Registry)
    (port : Nat) :
    (is_browser_running env reg1 port).1 = is_port_in_use env.conns port ∧
    (is_browser_running env reg1 port).1 = (is_browser_running env reg2 port).1 :=
  ⟨rfl, rfl⟩

/-- C10: for every port reported running, GET /browser/{port}/connection
answers with ws_endpoint synthesized as ws://<local_ip>:<port>/ from the
host's local IP, never the probed webSocketDebuggerUrl, because the
handler reads the key "wsEndpoint", which the resolver's dictionary never
contains. -/
theorem connection_endpoint_synthesized (env : Env) (reg : Registry) (port : Nat)
    (h : is_port_in_use env.conns port = true) :
    (get_browser_connection_endpoint env reg port).1 =
      Except.ok ⟨true, some ("http://" ++ get_local_ip env ++ ":" ++ toString port),
        some (synthesized_ws (get_local_ip env) port), some (get_local_ip env),
        some port⟩ ∧
    ∀ c : ConnInfo, c.get "wsEndpoint" = none := by
  constructor
  · have hrun : (is_browser_running env reg port).1 = true := h
    obtain ⟨ci, hci, -⟩ := get_browser_connection_bound env reg port h
    unfold get_browser_connection_endpoint
    simp only [hrun, if_true, hci]
    simp [ConnInfo.get]
    cases (get_browser_connection env (is_browser_running env reg port).2 port).1 <;> rfl
  · intro c
    simp [ConnInfo.get]

theorem connection_endpoint_synthesized_witness :
    (get_browser_connection_endpoint envLive emptyReg 9999).1 =
      Except.ok ⟨true, some ("http://" ++ get_local_ip envLive ++ ":" ++ toString 9999),
        some (synthesized_ws (get_local_ip envLive) 9999), some (get_local_ip envLive),
        some 9999⟩ ∧
    envLive.probe 9999 =
      some ⟨200, some "ws://127.0.0.1:9999/devtools/browser/abc"⟩ :=
  ⟨(connection_endpoint_synthesized envLive emptyReg 9999 (by decide)).1, rfl⟩
